import Mathlib

/-!
Shallow embedding of the trivia-game script (src/script.js) and proofs of
the specified properties.

The repository file contains two revisions of the same script, separated
by a document marker.  Functions whose bodies are identical in both
revisions are defined once at top level; the functions whose bodies
differ between the revisions (`saveScore` and `newPlayer`) live in the
namespaces `V1` (first revision) and `V2` (second revision).

Browser primitives are modelled explicitly, at the fidelity the script
exercises them:

* `localStorage` for the single key `triviaScores` is an
  `Option StoredString`: `none` is an absent key, `some (.json v)` is a
  stored string that parses as JSON to the value `v`, and
  `some .invalid` is a stored string that is not valid JSON.
  `JSON.parse` applied to `localStorage.getItem(..)` is `parseStored`:
  on an absent key `getItem` returns the JavaScript `null`, which
  `JSON.parse` coerces to the string "null" and parses to the JSON
  null value; on a stored string it either returns the parsed value or
  throws a SyntaxError.  `JSON.stringify` of an array of plain records
  round-trips, so `setItem(.., JSON.stringify(v))` stores
  `some (.json v)`.
* JavaScript numbers are modelled as `Int`; every number this program
  stores is a small integer (a count of correct answers).
* Exceptions are the `Except JsError` monad, written as explicit
  matches so that propagation is visible.
* DOM reads and writes are modelled as explicit state (see `GameState`
  further down).
-/

namespace Trivia

/-- JSON values as produced by `JSON.parse`.  Numbers are restricted to
integers, which covers every value this program ever stores. -/
inductive Json where
  | null : Json
  | bool : Bool → Json
  | num : Int → Json
  | str : String → Json
  | arr : List Json → Json
  | obj : List (String × Json) → Json

/-- JavaScript truthiness of a JSON value (`NaN` cannot arise because the
numbers here are integers). -/
def truthy : Json → Bool
  | .null => false
  | .bool b => b
  | .num n => n != 0
  | .str s => s != ""
  | .arr _ => true
  | .obj _ => true

/-- A string persisted under the `triviaScores` key: either it parses as
JSON to a value, or it is not valid JSON. -/
inductive StoredString where
  | json : Json → StoredString
  | invalid : StoredString

/-- The `localStorage` slot for the key `triviaScores`; `none` means the
key is absent. -/
abbrev Storage := Option StoredString

/-- The JavaScript exceptions this code can raise. -/
inductive JsError where
  | syntaxError : JsError
  | typeError : JsError
deriving DecidableEq, Repr

/-- `JSON.parse(localStorage.getItem("triviaScores"))`: an absent key
yields the JavaScript `null`, which `JSON.parse` coerces to the string
"null" and parses to the JSON null; a present string parses to its
value or throws a SyntaxError. -/
def parseStored : Storage → Except JsError Json
  | none => .ok .null
  | some (.json v) => .ok v
  | some .invalid => .error .syntaxError

/-- The shared expression `JSON.parse(localStorage.getItem("triviaScores")) || []`
from `saveScore` and `displayScores`. -/
def readScoresExpr (st : Storage) : Except JsError Json :=
  match parseStored st with
  | .error e => .error e
  | .ok v => .ok (if truthy v then v else .arr [])

/-- The object literal `{ username, score }` pushed by `saveScore`. -/
def entryJson (username : String) (score : Int) : Json :=
  .obj [("username", .str username), ("score", .num score)]

/-- `scores.push(x)`: appends when the receiver is an array, otherwise
(a number, a string, ...) the method call throws a TypeError. -/
def jsPush (scores x : Json) : Except JsError Json :=
  match scores with
  | .arr l => .ok (.arr (l ++ [x]))
  | _ => .error .typeError

namespace V1

/-- `saveScore` of the first revision (src/script.js lines 209-213):
read the stored list (or `[]`), push the new entry, write the list
back.  There is no guard on `username`. -/
def saveScore (username : String) (score : Int) (st : Storage) :
    Except JsError Storage :=
  match readScoresExpr st with
  | .error e => .error e
  | .ok scores =>
    match jsPush scores (entryJson username score) with
    | .error e => .error e
    | .ok scores2 => .ok (some (.json scores2))

end V1

namespace V2

/-- `saveScore` of the second revision (src/script.js lines 453-460):
identical to the first revision except for the initial guard
`if (!username) return;` — an empty username is the only falsy string. -/
def saveScore (username : String) (score : Int) (st : Storage) :
    Except JsError Storage :=
  if username = "" then .ok st
  else
    match readScoresExpr st with
    | .error e => .error e
    | .ok scores =>
      match jsPush scores (entryJson username score) with
      | .error e => .error e
      | .ok scores2 => .ok (some (.json scores2))

end V2

/-- Property access `e.f` as used in `displayScores`: a field of an
object, `undefined` (here `none`) on every other non-null value.  Access
on the JSON null throws and is handled separately in `entryCells`. -/
def getProp (f : String) : Json → Option Json
  | .obj fields => (fields.find? (fun p => p.1 = f)).map (fun p => p.2)
  | _ => none

mutual

/-- JavaScript template-literal stringification of a JSON value. -/
def jsToString : Json → String
  | .null => "null"
  | .bool b => if b then "true" else "false"
  | .num n => toString n
  | .str s => s
  | .arr l => jsToStringList l
  | .obj _ => "[object Object]"

/-- `Array.prototype.toString`: elements joined with commas. -/
def jsToStringList : List Json → String
  | [] => ""
  | [v] => jsToString v
  | v :: vs => jsToString v ++ "," ++ jsToStringList vs

end

/-- Stringification of a possibly-`undefined` value inside a template
literal. -/
def renderCell : Option Json → String
  | none => "undefined"
  | some v => jsToString v

/-- The two table cells `<td>$\x7bentry.username\x7d</td><td>$\x7bentry.score\x7d</td>`
built for one ledger entry; property access on the JSON null throws a
TypeError. -/
def entryCells : Json → Except JsError (String × String)
  | .null => .error .typeError
  | e => .ok (renderCell (getProp "username" e), renderCell (getProp "score" e))

/-- The `forEach` loop of `displayScores`: one row per entry, in stored
order; an entry whose property access throws propagates the exception
(the rows already appended before the throw are not modelled, since the
function result stands for the rendered table only when the loop
completes). -/
def renderRows : List Json → Except JsError (List (String × String))
  | [] => .ok []
  | e :: l =>
    match entryCells e with
    | .error err => .error err
    | .ok row =>
      match renderRows l with
      | .error err => .error err
      | .ok rows => .ok (row :: rows)

/-- `displayScores` (identical in both revisions, src/script.js
lines 218-227 and 465-475): read the stored list (or `[]`), clear the
table body, and append one row per entry in stored order.  The result is
the list of rendered rows; `forEach` on a non-array value throws a
TypeError. -/
def displayScores (st : Storage) : Except JsError (List (String × String)) :=
  match readScoresExpr st with
  | .error e => .error e
  | .ok scores =>
    match scores with
    | .arr l => renderRows l
    | _ => .error .typeError

/-- A whole submission history: the sequence of `saveScore` calls of the
first revision, one per (username, score) pair, threading the persisted
storage. -/
def saveAll : List (String × Int) → Storage → Except JsError Storage
  | [], st => .ok st
  | p :: ps, st =>
    match V1.saveScore p.1 p.2 st with
    | .error e => .error e
    | .ok st2 => saveAll ps st2

/-! ### The rendered form and the scorer -/

/-- One rendered radio option: its answer text, the internal
`data-correct="true"` marker, and whether the radio input is currently
checked. -/
structure AnswerOption where
  value : String
  correct : Bool
  checked : Bool
deriving DecidableEq

/-- One rendered question block: the prompt paragraph and the radio
options, all sharing the group name `answer` + question index. -/
structure RenderedQuestion where
  prompt : String
  groupName : String
  options : List AnswerOption
deriving DecidableEq

/-- `document.querySelectorAll("input[type=radio]:checked")`: the
checked radio inputs of the page, in document order. -/
def checkedAnswers (doc : List RenderedQuestion) : List AnswerOption :=
  ((doc.map fun q => q.options).flatten).filter fun o => o.checked

/-- `calculateScore` (identical in both revisions, src/script.js
lines 193-202 and 434-445): iterate over the checked radio inputs and
count those whose `data-correct` attribute is the string `true`.  It is
a pure function of the rendered form state `doc`. -/
def calculateScore (doc : List RenderedQuestion) : Nat :=
  (checkedAnswers doc).countP fun o => o.correct

/-- The contribution of a single question block to the score. -/
def perQuestionScore (q : RenderedQuestion) : Nat :=
  (q.options.filter fun o => o.checked).countP fun o => o.correct

/-- The browser invariant for radio inputs sharing one group name: at
most one option per question is checked. -/
def radioDiscipline (doc : List RenderedQuestion) : Prop :=
  ∀ q ∈ doc, (q.options.countP fun o => o.checked) ≤ 1

/-- A concrete two-question form: question one has its correct option
checked, question two is unanswered. -/
def sampleDoc : List RenderedQuestion :=
  [{ prompt := "Q1", groupName := "answer0",
     options := [⟨"A", true, true⟩, ⟨"B", false, false⟩] },
   { prompt := "Q2", groupName := "answer1",
     options := [⟨"C", true, false⟩, ⟨"D", false, false⟩] }]

/-- `sampleDoc` with the options of each question reordered (same
correctness markers, same checked options). -/
def sampleDocShuffled : List RenderedQuestion :=
  [{ prompt := "Q1", groupName := "answer0",
     options := [⟨"B", false, false⟩, ⟨"A", true, true⟩] },
   { prompt := "Q2", groupName := "answer1",
     options := [⟨"D", false, false⟩, ⟨"C", true, false⟩] }]

/-! ### Fetched questions and their rendering -/

/-- One item of the fetched API batch, with the source field names. -/
structure FetchedQuestion where
  question : String
  correct_answer : String
  incorrect_answers : List String
deriving DecidableEq

/-- `createAnswerOptions` (identical in both revisions, src/script.js
lines 73-93 and 311-331): build `[correctAnswer, ...incorrectAnswers]`,
shuffle it with the random-comparator `sort` — modelled by the `shuffle`
oracle, which may depend on the question index and is assumed (where
needed) to permute its input — and map each answer to a radio option
whose correctness marker is the comparison `answer === correctAnswer`. -/
def createAnswerOptions (shuffle : Nat → List String → List String)
    (correctAnswer : String) (incorrectAnswers : List String)
    (questionIndex : Nat) : List AnswerOption :=
  (shuffle questionIndex (correctAnswer :: incorrectAnswers)).map fun answer =>
    { value := answer, correct := answer == correctAnswer, checked := false }

/-- The question block built for one fetched question at a given index:
the prompt paragraph plus the options with group name
`answer` + index.  Rendered options start unchecked. -/
def renderQuestionBlock (shuffle : Nat → List String → List String)
    (index : Nat) (q : FetchedQuestion) : RenderedQuestion :=
  { prompt := q.question
    groupName := "answer" ++ toString index
    options :=
      createAnswerOptions shuffle q.correct_answer q.incorrect_answers index }

/-- The `forEach((question, index) => ..)` loop of `displayQuestions`,
starting from a given index. -/
def displayQuestionsFrom (shuffle : Nat → List String → List String) :
    Nat → List FetchedQuestion → List RenderedQuestion
  | _, [] => []
  | i, q :: qs =>
    renderQuestionBlock shuffle i q :: displayQuestionsFrom shuffle (i + 1) qs

/-- `displayQuestions` (identical in both revisions, src/script.js
lines 50-64 and 288-302): clear the container, then append one block
per fetched question, indices starting at 0. -/
def displayQuestions (shuffle : Nat → List String → List String)
    (questions : List FetchedQuestion) : List RenderedQuestion :=
  displayQuestionsFrom shuffle 0 questions

/-- A shuffle oracle that keeps the API order; `sort` with a random
comparator can produce it. -/
def idShuffle : Nat → List String → List String := fun _ l => l

/-- A concrete well-formed one-question batch. -/
def sampleBatch : List FetchedQuestion :=
  [{ question := "Q", correct_answer := "A", incorrect_answers := ["B", "C", "D"] }]

/-- A concrete batch whose question has three incorrect answers, one of
which textually equals the correct answer. -/
def dupBatch : List FetchedQuestion :=
  [{ question := "Q", correct_answer := "A", incorrect_answers := ["A", "B", "C"] }]

/-! ### Cookies

JavaScript strings are modelled as `List Char` here, so that the
character-level parsing done by `getCookie` is explicit.  The browser
cookie jar is the list of unexpired (name, value) pairs; reading
`document.cookie` yields the rows `name=value` joined by `"; "`, and
the `split("; ")` in `getCookie` recovers exactly those rows (the join
and the split are mutually inverse as long as no name or value contains
the separator, which the claims assume), so `getCookie` is modelled
directly on the row list. -/

abbrev CookieJar := List (List Char × List Char)

/-- The cookie name `username` used by the script. -/
def usernameKey : List Char := ['u', 's', 'e', 'r', 'n', 'a', 'm', 'e']

/-- `s.startsWith(p)` on JavaScript strings. -/
def strStartsWith : List Char → List Char → Bool
  | _, [] => true
  | [], _ :: _ => false
  | a :: s, b :: p => (a == b) && strStartsWith s p

/-- `s.split(sep)` for a one-character separator. -/
def splitOnC (c : Char) : List Char → List (List Char)
  | [] => [[]]
  | x :: xs =>
    if x = c then [] :: splitOnC c xs
    else
      match splitOnC c xs with
      | [] => [[x]]
      | y :: ys => (x :: y) :: ys

/-- The rows of `document.cookie`: one `name=value` string per stored
cookie. -/
def cookieRows (jar : CookieJar) : List (List Char) :=
  jar.map fun e => e.1 ++ '=' :: e.2

/-- `setCookie` (identical in both revisions, src/script.js
lines 105-110 and 343-348): writes `name=value; expires=..; path=/` to
`document.cookie`.  The browser upserts the cookie when the expiry is
in the future (positive `days`) and removes it when the expiry is in
the past. -/
def setCookie (name value : List Char) (days : Int) (jar : CookieJar) :
    CookieJar :=
  if 0 < days then (jar.filter fun e => e.1 != name) ++ [(name, value)]
  else jar.filter fun e => e.1 != name

/-- `deleteCookie` (identical in both revisions, src/script.js
lines 128-130 and 366-368): writes the cookie with an expiry in 1970,
which removes it from the jar. -/
def deleteCookie (name : List Char) (jar : CookieJar) : CookieJar :=
  jar.filter fun e => e.1 != name

/-- `getCookie` (identical in both revisions, src/script.js
lines 117-122 and 355-360): split `document.cookie` on `"; "`, find the
first row starting with `name=`, take the piece after the first `=`,
and coerce a missing row or an empty piece to null (`|| null`). -/
def getCookie (name : List Char) (jar : CookieJar) : Option (List Char) :=
  match (cookieRows jar).find? (fun row => strStartsWith row (name ++ ['='])) with
  | none => none
  | some row =>
    match (splitOnC '=' row)[1]? with
    | none => none
    | some v => if v = [] then none else some v

/-- Jar well-formedness: cookie names contain no `=` (the browser never
stores such a name). -/
def jarWF (jar : CookieJar) : Prop := ∀ e ∈ jar, '=' ∉ e.1

/-! ### Page state -/

/-- The page state the script reads and writes: the cookie jar, the name
input (its value and `hidden` class), the new-player button, the
loading indicator and question container (`hidden` classes), the
rendered question blocks, and a count of fetch requests started (to
state "a fresh question load was triggered"). -/
structure GameState where
  jar : CookieJar
  usernameValue : String
  usernameHidden : Bool
  newPlayerHidden : Bool
  loadingHidden : Bool
  questionsHidden : Bool
  rendered : List RenderedQuestion
  fetchesStarted : Nat
deriving DecidableEq

/-- `showLoading` (identical in both revisions, src/script.js
lines 37-44 and 275-282): while loading, the loading container is
visible and the question container hidden; otherwise the inverse. -/
def showLoading (isLoading : Bool) (st : GameState) : GameState :=
  { st with loadingHidden := !isLoading, questionsHidden := isLoading }

/-- The synchronous part of `fetchQuestions`: show the loading state and
issue the request. -/
def fetchStart (st : GameState) : GameState :=
  { showLoading true st with fetchesStarted := st.fetchesStarted + 1 }

/-- The continuation of `fetchQuestions` once the request settles: on
success (`then`) render the fetched questions and hide the loading
state; on failure (`catch`) log the error and hide the loading state.
Both handlers return normally, so no exception escapes; the model is a
total function. -/
def fetchComplete (shuffle : Nat → List String → List String)
    (outcome : Except Unit (List FetchedQuestion)) (st : GameState) : GameState :=
  match outcome with
  | .ok qs => showLoading false { st with rendered := displayQuestions shuffle qs }
  | .error _ => showLoading false st

/-- `fetchQuestions` (identical in both revisions, src/script.js
lines 17-30 and 255-268) run to completion: start, then settle with the
given outcome. -/
def fetchQuestions (shuffle : Nat → List String → List String)
    (outcome : Except Unit (List FetchedQuestion)) (st : GameState) : GameState :=
  fetchComplete shuffle outcome (fetchStart st)

/-- `updateUIBasedOnSession` (identical in both revisions, src/script.js
lines 136-148 and 374-386): with a truthy username cookie hide the name
input and show the new-player button, otherwise the inverse.
(`getCookie` never returns a truthy-empty string: the `|| null` already
coerced it, so truthiness is `isSome`.) -/
def updateUIBasedOnSession (st : GameState) : GameState :=
  if (getCookie usernameKey st.jar).isSome then
    { st with usernameHidden := true, newPlayerHidden := false }
  else
    { st with usernameHidden := false, newPlayerHidden := true }

/-- The uncheck loop of the second revision `newPlayer`: every checked
radio input is set to unchecked (already-unchecked options are
unaffected, so all options end unchecked). -/
def clearChecked (doc : List RenderedQuestion) : List RenderedQuestion :=
  doc.map fun q =>
    { q with options := q.options.map fun o => { o with checked := false } }

namespace V1

/-- `newPlayer` of the first revision (src/script.js lines 232-236):
delete the username cookie, clear the name input, update visibility.
It does not touch the rendered questions and starts no fetch. -/
def newPlayer (st : GameState) : GameState :=
  updateUIBasedOnSession
    { st with jar := deleteCookie usernameKey st.jar, usernameValue := "" }

end V1

namespace V2

/-- `newPlayer` of the second revision (src/script.js lines 481-496):
delete the username cookie, clear and reveal the name input, hide the
new-player button, uncheck every selected radio, call
`fetchQuestions()` (whose synchronous part runs here; its continuation
settles after this handler returns and touches neither the name field
nor the button), and update visibility. -/
def newPlayer (st : GameState) : GameState :=
  let s1 : GameState := { st with jar := deleteCookie usernameKey st.jar }
  let s2 : GameState := { s1 with usernameValue := "", usernameHidden := false }
  let s3 : GameState := { s2 with newPlayerHidden := true }
  let s4 : GameState := { s3 with rendered := clearChecked s3.rendered }
  let s5 : GameState := fetchStart s4
  updateUIBasedOnSession s5

end V2

/-- A concrete mid-game state: a remembered player, one answered and one
unanswered question, one fetch already made. -/
def sampleRoundState : GameState :=
  { jar := [(usernameKey, ['B', 'o', 'b'])]
    usernameValue := "Bob"
    usernameHidden := true
    newPlayerHidden := false
    loadingHidden := true
    questionsHidden := false
    rendered := sampleDoc
    fetchesStarted := 1 }

/-! ### Evaluation lemmas for the ledger -/

theorem saveScore_v1_on_arr (u : String) (s : Int) (l : List Json) :
    V1.saveScore u s (some (.json (.arr l))) =
      .ok (some (.json (.arr (l ++ [entryJson u s])))) := rfl

theorem saveScore_v1_on_none (u : String) (s : Int) :
    V1.saveScore u s none = .ok (some (.json (.arr [entryJson u s]))) := rfl

theorem saveScore_v2_on_arr (u : String) (s : Int) (l : List Json) :
    V2.saveScore u s (some (.json (.arr l))) =
      .ok (some (.json (.arr (if u = "" then l else l ++ [entryJson u s])))) := by
  by_cases h : u = "" <;>
    simp [V2.saveScore, h, readScoresExpr, parseStored, truthy, jsPush]

theorem entryCells_entryJson (u : String) (s : Int) :
    entryCells (entryJson u s) = .ok (u, toString s) := rfl

theorem saveAll_on_arr (ps : List (String × Int)) (l : List Json) :
    saveAll ps (some (.json (.arr l))) =
      .ok (some (.json (.arr (l ++ ps.map fun p => entryJson p.1 p.2)))) := by
  induction ps generalizing l with
  | nil => simp [saveAll]
  | cons p ps ih =>
    have h : saveAll (p :: ps) (some (.json (.arr l))) =
        saveAll ps (some (.json (.arr (l ++ [entryJson p.1 p.2])))) := rfl
    rw [h, ih (l ++ [entryJson p.1 p.2])]
    simp

theorem renderRows_entryJson (ps : List (String × Int)) :
    renderRows (ps.map fun p => entryJson p.1 p.2) =
      .ok (ps.map fun p => (p.1, toString p.2)) := by
  induction ps with
  | nil => rfl
  | cons p ps ih =>
    have h : renderRows ((p :: ps).map fun q => entryJson q.1 q.2) =
        match renderRows (ps.map fun q => entryJson q.1 q.2) with
        | .error err => .error err
        | .ok rows => .ok ((p.1, toString p.2) :: rows) := rfl
    rw [h, ih]
    exact rfl

theorem displayScores_on_arr (l : List Json) :
    displayScores (some (.json (.arr l))) = renderRows l := rfl

/-! ### Claim theorems for the ledger -/

/-- C1, counterexample.  The claim says `saveScore` is a no-op on an
empty username, but the first revision (src/script.js lines 209-213) has
no guard: called with the empty username on an empty stored list it
appends an entry, so the persisted `triviaScores` list changes. -/
theorem saveScore_v1_appends_empty_username :
    V1.saveScore "" 0 (some (.json (.arr []))) =
        .ok (some (.json (.arr [entryJson "" 0])))
    ∧ some (StoredString.json (.arr [entryJson "" 0])) ≠
        some (StoredString.json (.arr [])) :=
  ⟨rfl, by simp [entryJson]⟩

/-- C1, amended.  Only the second revision of `saveScore`
(src/script.js lines 453-460), which carries the guard
`if (!username) return;`, rejects an empty username as a no-op: for
every stored state and score it returns the storage unchanged. -/
theorem saveScore_v2_empty_username_noop (s : Int) (st : Storage) :
    V2.saveScore "" s st = .ok st := rfl

/-- C2, counterexample.  A persisted `triviaScores` value that is not
valid JSON is not treated as an empty ledger: `JSON.parse` throws a
SyntaxError that escapes both `saveScore` (both revisions, for a
non-empty username) and `displayScores`. -/
theorem ledger_invalid_json_throws :
    displayScores (some .invalid) = .error .syntaxError
    ∧ V1.saveScore "Ada" 7 (some .invalid) = .error .syntaxError
    ∧ V2.saveScore "Ada" 7 (some .invalid) = .error .syntaxError :=
  ⟨rfl, rfl, rfl⟩

/-- C2, amended.  An absent persisted value (and a stored value parsing
to the falsy JSON null) is treated as an empty ledger by `saveScore`
(both revisions) and `displayScores`, and both complete without
throwing; but a stored value that is not valid JSON makes `JSON.parse`
throw an uncaught SyntaxError in both functions (except in the second
revision `saveScore` when the empty-username guard returns first). -/
theorem ledger_absent_empty_invalid_throws (u : String) (s : Int) :
    V1.saveScore u s none = .ok (some (.json (.arr [entryJson u s])))
    ∧ V2.saveScore u s none =
        .ok (if u = "" then none else some (.json (.arr [entryJson u s])))
    ∧ displayScores none = .ok []
    ∧ displayScores (some (.json .null)) = .ok []
    ∧ V1.saveScore u s (some .invalid) = .error .syntaxError
    ∧ V2.saveScore u s (some .invalid) =
        (if u = "" then .ok (some .invalid) else .error .syntaxError)
    ∧ displayScores (some .invalid) = .error .syntaxError := by
  refine ⟨rfl, ?_, rfl, rfl, rfl, ?_, rfl⟩ <;>
    by_cases h : u = "" <;>
      simp [V2.saveScore, h, readScoresExpr, parseStored, truthy, jsPush]

/-- C9, confirmed.  `saveScore` is append-only: from any previously
stored list of entries, the first revision always writes back exactly
the old list with the new entry appended, and the second revision does
the same unless the empty-username guard makes it a no-op; in both
cases every previously stored entry is kept unmodified at its original
position, and an accepted entry grows the list by exactly one. -/
theorem saveScore_append_only (u : String) (s : Int) (l : List Json) :
    V1.saveScore u s (some (.json (.arr l))) =
        .ok (some (.json (.arr (l ++ [entryJson u s]))))
    ∧ V2.saveScore u s (some (.json (.arr l))) =
        .ok (some (.json (.arr (if u = "" then l else l ++ [entryJson u s]))))
    ∧ (∀ i : Nat, i < l.length → (l ++ [entryJson u s])[i]? = l[i]?)
    ∧ (l ++ [entryJson u s]).length = l.length + 1 := by
  refine ⟨saveScore_v1_on_arr u s l, saveScore_v2_on_arr u s l, ?_, by simp⟩
  intro i hi
  simp [List.getElem?_append, hi]

/-- C6, confirmed.  Starting from an absent (hence empty) ledger, a
sequence of N `saveScore` calls of the first revision (the revision the
claim cites, src/script.js lines 209-213) followed by `displayScores`
renders exactly N rows, in append order, each row showing the appended
username and score. -/
theorem saveScore_then_displayScores_rows (ps : List (String × Int)) :
    ∃ st : Storage, saveAll ps none = .ok st
      ∧ displayScores st = .ok (ps.map fun p => (p.1, toString p.2))
      ∧ (ps.map fun p => (p.1, toString p.2)).length = ps.length := by
  match ps with
  | [] => exact ⟨none, rfl, rfl, rfl⟩
  | p :: ps =>
    refine ⟨some (.json (.arr ((p :: ps).map fun q => entryJson q.1 q.2))), ?_, ?_, by simp⟩
    · have h : saveAll (p :: ps) none =
          saveAll ps (some (.json (.arr [entryJson p.1 p.2]))) := rfl
      rw [h, saveAll_on_arr]
      simp
    · rw [displayScores_on_arr, renderRows_entryJson]

/-! ### Scorer lemmas and claims -/

theorem calculateScore_cons (q : RenderedQuestion) (doc : List RenderedQuestion) :
    calculateScore (q :: doc) = perQuestionScore q + calculateScore doc := by
  simp [calculateScore, checkedAnswers, perQuestionScore,
    List.filter_append, List.countP_append]

theorem calculateScore_eq_sum (doc : List RenderedQuestion) :
    calculateScore doc = (doc.map perQuestionScore).sum := by
  induction doc with
  | nil => rfl
  | cons q doc ih => rw [calculateScore_cons, ih, List.map_cons, List.sum_cons]

theorem perQuestionScore_le_one (q : RenderedQuestion)
    (h : (q.options.countP fun o => o.checked) ≤ 1) : perQuestionScore q ≤ 1 := by
  unfold perQuestionScore
  calc (q.options.filter fun o => o.checked).countP (fun o => o.correct)
      ≤ (q.options.filter fun o => o.checked).length := List.countP_le_length _
    _ = q.options.countP fun o => o.checked := (List.countP_eq_length_filter _ _).symm
    _ ≤ 1 := h

theorem perQuestionScore_perm {q q2 : RenderedQuestion}
    (h : q.options.Perm q2.options) : perQuestionScore q = perQuestionScore q2 := by
  unfold perQuestionScore
  exact (List.Perm.filter _ h).countP_eq _

/-- C3, confirmed.  For a form obeying the radio-group discipline (at
most one checked option per question), `calculateScore` returns an
integer in [0, number of rendered questions] — the lower bound is the
type `Nat` — it is the sum of per-question contributions, and a
question with no selected option contributes 0.  Being a plain function
of the form state, it reads nothing else and has no side effects. -/
theorem calculateScore_bounds (doc : List RenderedQuestion)
    (h : radioDiscipline doc) :
    calculateScore doc ≤ doc.length
    ∧ calculateScore doc = (doc.map perQuestionScore).sum
    ∧ ∀ q ∈ doc, (∀ o ∈ q.options, o.checked = false) → perQuestionScore q = 0 := by
  refine ⟨?_, calculateScore_eq_sum doc, ?_⟩
  · induction doc with
    | nil => simp [calculateScore, checkedAnswers]
    | cons q doc ih =>
      rw [calculateScore_cons]
      have hq : perQuestionScore q ≤ 1 :=
        perQuestionScore_le_one q (h q (List.mem_cons_self q doc))
      have hd : calculateScore doc ≤ doc.length :=
        ih fun q2 hq2 => h q2 (List.mem_cons_of_mem q hq2)
      calc perQuestionScore q + calculateScore doc ≤ 1 + doc.length := by
            exact Nat.add_le_add hq hd
        _ = (q :: doc).length := by simp [Nat.add_comm]
  · intro q _ hunchecked
    unfold perQuestionScore
    have : q.options.filter (fun o => o.checked) = [] :=
      List.filter_eq_nil_iff.mpr (by
        intro o ho
        simp [hunchecked o ho])
    rw [this]
    rfl

/-- C3, witness at a concrete form state. -/
theorem calculateScore_bounds_witness :
    radioDiscipline sampleDoc
    ∧ (calculateScore sampleDoc ≤ sampleDoc.length
      ∧ calculateScore sampleDoc = (sampleDoc.map perQuestionScore).sum
      ∧ ∀ q ∈ sampleDoc, (∀ o ∈ q.options, o.checked = false) →
          perQuestionScore q = 0) :=
  ⟨by unfold radioDiscipline; decide,
    calculateScore_bounds sampleDoc (by unfold radioDiscipline; decide)⟩

/-- C4, confirmed.  `calculateScore` is invariant under reordering the
options within each question: if two rendered forms are pointwise equal
up to a permutation of each question block — the same correctness
markers and the same checked options travelling with their option —
the returned score is the same. -/
theorem calculateScore_perm_invariant (doc doc2 : List RenderedQuestion)
    (h : List.Forall₂ (fun q q2 => q.options.Perm q2.options) doc doc2) :
    calculateScore doc = calculateScore doc2 := by
  induction h with
  | nil => rfl
  | cons hqq _ ih =>
    rw [calculateScore_cons, calculateScore_cons, ih, perQuestionScore_perm hqq]

/-- C4, witness: the sample form and its per-question reordering score
identically. -/
theorem calculateScore_perm_invariant_witness :
    calculateScore sampleDoc = calculateScore sampleDocShuffled :=
  calculateScore_perm_invariant sampleDoc sampleDocShuffled
    (List.Forall₂.cons (by decide) (List.Forall₂.cons (by decide) List.Forall₂.nil))

/-! ### Rendering lemmas and claims -/

theorem displayQuestionsFrom_length (shuffle : Nat → List String → List String)
    (qs : List FetchedQuestion) :
    ∀ i, (displayQuestionsFrom shuffle i qs).length = qs.length := by
  induction qs with
  | nil => intro i; rfl
  | cons q qs ih =>
    intro i
    rw [displayQuestionsFrom, List.length_cons, ih (i + 1), List.length_cons]

theorem mem_displayQuestionsFrom (shuffle : Nat → List String → List String)
    (qs : List FetchedQuestion) :
    ∀ i b, b ∈ displayQuestionsFrom shuffle i qs →
      ∃ j q, q ∈ qs ∧ b = renderQuestionBlock shuffle j q := by
  induction qs with
  | nil => intro i b hb; cases hb
  | cons q qs ih =>
    intro i b hb
    rcases List.mem_cons.mp hb with hb | hb
    · exact ⟨i, q, List.mem_cons_self q qs, hb⟩
    · rcases ih (i + 1) b hb with ⟨j, q2, hq2, hb2⟩
      exact ⟨j, q2, List.mem_cons_of_mem q hq2, hb2⟩

theorem createAnswerOptions_marker_count
    (shuffle : Nat → List String → List String)
    (c : String) (inc : List String) (i : Nat)
    (hshuffle : (shuffle i (c :: inc)).Perm (c :: inc))
    (hdistinct : c ∉ inc) :
    ((createAnswerOptions shuffle c inc i).countP fun o => o.correct) = 1 := by
  unfold createAnswerOptions
  have hcomp : ((fun o : AnswerOption => o.correct) ∘ fun answer =>
      ({ value := answer, correct := answer == c, checked := false } : AnswerOption)) =
      fun answer => answer == c := rfl
  rw [List.countP_map, hcomp, hshuffle.countP_eq, List.countP_cons]
  have h0 : List.countP (fun a => a == c) inc = 0 := by
    rw [List.countP_eq_zero]
    intro a ha h
    exact hdistinct (beq_iff_eq.mp h ▸ ha)
  rw [h0]
  simp

theorem createAnswerOptions_length
    (shuffle : Nat → List String → List String)
    (c : String) (inc : List String) (i : Nat)
    (hshuffle : (shuffle i (c :: inc)).Perm (c :: inc)) :
    (createAnswerOptions shuffle c inc i).length = inc.length + 1 := by
  unfold createAnswerOptions
  rw [List.length_map, hshuffle.length_eq, List.length_cons]

/-- C5, counterexample.  The correctness marker is the string comparison
`answer === correctAnswer`, so a fetched question whose three incorrect
answers happen to contain the text of the correct answer gets two
options carrying the marker (shown here with the identity shuffle):
the batch has one question with one correct and three incorrect
answers, yet its block renders 4 options of which 2 are marked. -/
theorem createAnswerOptions_duplicate_two_markers :
    (∀ q ∈ dupBatch, q.incorrect_answers.length = 3)
    ∧ (displayQuestions idShuffle dupBatch).map
        (fun b => (b.options.length, b.options.countP fun o => o.correct)) =
      [(4, 2)] := by
  constructor
  · decide
  · decide

/-- C5, amended.  For every fetched batch in which each question carries
one correct and three incorrect answers and — the amendment forced by
the counterexample — no incorrect answer textually equals the correct
one, `displayQuestions` renders exactly one block per question, each
block has exactly 4 options, and exactly one option per block carries
the correctness marker (for any shuffle oracle that permutes its
input). -/
theorem displayQuestions_blocks_options_marker
    (shuffle : Nat → List String → List String)
    (qs : List FetchedQuestion)
    (hshuffle : ∀ i l, (shuffle i l).Perm l)
    (hlen : ∀ q ∈ qs, q.incorrect_answers.length = 3)
    (hdistinct : ∀ q ∈ qs, q.correct_answer ∉ q.incorrect_answers) :
    (displayQuestions shuffle qs).length = qs.length
    ∧ ∀ b ∈ displayQuestions shuffle qs,
        b.options.length = 4 ∧ (b.options.countP fun o => o.correct) = 1 := by
  refine ⟨displayQuestionsFrom_length shuffle qs 0, ?_⟩
  intro b hb
  rcases mem_displayQuestionsFrom shuffle qs 0 b hb with ⟨j, q, hq, rfl⟩
  constructor
  · rw [show (renderQuestionBlock shuffle j q).options =
        createAnswerOptions shuffle q.correct_answer q.incorrect_answers j from rfl]
    rw [createAnswerOptions_length shuffle _ _ j (hshuffle j _), hlen q hq]
  · rw [show (renderQuestionBlock shuffle j q).options =
        createAnswerOptions shuffle q.correct_answer q.incorrect_answers j from rfl]
    exact createAnswerOptions_marker_count shuffle _ _ j (hshuffle j _)
      (hdistinct q hq)

/-- C5, witness at a concrete batch with the identity shuffle. -/
theorem displayQuestions_blocks_marker_witness :
    (∀ (i : Nat) (l : List String), (idShuffle i l).Perm l)
    ∧ (∀ q ∈ sampleBatch, q.incorrect_answers.length = 3)
    ∧ (∀ q ∈ sampleBatch, q.correct_answer ∉ q.incorrect_answers)
    ∧ ((displayQuestions idShuffle sampleBatch).length = sampleBatch.length
      ∧ ∀ b ∈ displayQuestions idShuffle sampleBatch,
          b.options.length = 4 ∧ (b.options.countP fun o => o.correct) = 1) :=
  ⟨fun _ l => List.Perm.refl l, by decide, by decide,
    displayQuestions_blocks_options_marker idShuffle sampleBatch
      (fun _ l => List.Perm.refl l) (by decide) (by decide)⟩

/-! ### Cookie lemmas and claims -/

theorem strStartsWith_self_append (p rest : List Char) :
    strStartsWith (p ++ rest) p = true := by
  induction p with
  | nil => cases rest <;> rfl
  | cons a p ih => simp [strStartsWith, ih]

theorem strStartsWith_name_mismatch (c : Char) (u : List Char) :
    ∀ (n v : List Char), c ∉ u → c ∉ n → n ≠ u →
      strStartsWith (n ++ c :: v) (u ++ [c]) = false := by
  induction u with
  | nil =>
    intro n v _ hn hne
    cases n with
    | nil => exact absurd rfl hne
    | cons b n2 =>
      have hbc : (b == c) = false := by
        rw [beq_eq_false_iff_ne]
        intro h
        exact hn (h ▸ List.mem_cons_self b n2)
      simp [strStartsWith, hbc]
  | cons a u2 ih =>
    intro n v hu hn hne
    cases n with
    | nil =>
      have hca : (c == a) = false := by
        rw [beq_eq_false_iff_ne]
        intro h
        exact hu (h ▸ List.mem_cons_self a u2)
      simp [strStartsWith, hca]
    | cons b n2 =>
      by_cases hba : b = a
      · subst hba
        have htail : strStartsWith (n2 ++ c :: v) (u2 ++ [c]) = false :=
          ih n2 v (fun h => hu (List.mem_cons_of_mem b h))
            (fun h => hn (List.mem_cons_of_mem b h))
            (fun h => hne (by rw [h]))
        simp [strStartsWith, htail]
      · have hba2 : (b == a) = false := beq_eq_false_iff_ne.mpr hba
        simp [strStartsWith, hba2]

theorem splitOnC_not_mem (c : Char) (v : List Char) (h : c ∉ v) :
    splitOnC c v = [v] := by
  induction v with
  | nil => rfl
  | cons x xs ih =>
    have hx : ¬x = c := fun hxc => h (hxc ▸ List.mem_cons_self x xs)
    rw [splitOnC, if_neg hx, ih fun hm => h (List.mem_cons_of_mem x hm)]

theorem splitOnC_name_value (c : Char) (n v : List Char) (hn : c ∉ n)
    (hv : c ∉ v) : splitOnC c (n ++ c :: v) = [n, v] := by
  induction n with
  | nil => rw [List.nil_append, splitOnC, if_pos rfl, splitOnC_not_mem c v hv]
  | cons x n2 ih =>
    have hx : ¬x = c := fun hxc => hn (hxc ▸ List.mem_cons_self x n2)
    rw [List.cons_append, splitOnC, if_neg hx,
      ih fun hm => hn (List.mem_cons_of_mem x hm)]

theorem find?_false_append {α : Type} (p : α → Bool) (l1 l2 : List α)
    (h : ∀ x ∈ l1, p x = false) :
    List.find? p (l1 ++ l2) = List.find? p l2 := by
  induction l1 with
  | nil => rfl
  | cons a l1 ih =>
    rw [List.cons_append, List.find?_cons_of_neg _ (by
      rw [h a (List.mem_cons_self a l1)]; exact Bool.false_ne_true)]
    exact ih fun x hx => h x (List.mem_cons_of_mem a hx)

theorem filtered_rows_fail (name : List Char) (hname : '=' ∉ name)
    (jar : CookieJar) (hwf : jarWF jar) :
    ∀ row ∈ cookieRows (jar.filter fun e => e.1 != name),
      strStartsWith row (name ++ ['=']) = false := by
  intro row hrow
  rcases List.mem_map.mp hrow with ⟨e, he, rfl⟩
  have he2 := List.mem_filter.mp he
  exact strStartsWith_name_mismatch '=' name e.1 e.2 hname
    (hwf e he2.1) (bne_iff_ne.mp he2.2)

theorem getCookie_setCookie (jar : CookieJar) (v : List Char) (days : Int)
    (hwf : jarWF jar) (hv : '=' ∉ v) (hd : 0 < days) :
    getCookie usernameKey (setCookie usernameKey v days jar) =
      if v = [] then none else some v := by
  have hname : '=' ∉ usernameKey := by decide
  unfold getCookie setCookie
  rw [if_pos hd]
  rw [show cookieRows ((jar.filter fun e => e.1 != usernameKey) ++
      [(usernameKey, v)]) =
      cookieRows (jar.filter fun e => e.1 != usernameKey) ++
        [usernameKey ++ '=' :: v] from List.map_append _ _ _]
  rw [find?_false_append _ _ _ (filtered_rows_fail usernameKey hname jar hwf)]
  rw [List.find?_cons_of_pos _ (by
    rw [show usernameKey ++ '=' :: v = (usernameKey ++ ['=']) ++ v by simp]
    exact strStartsWith_self_append (usernameKey ++ ['=']) v)]
  show (match (splitOnC '=' (usernameKey ++ '=' :: v))[1]? with
    | none => (none : Option (List Char))
    | some v2 => if v2 = [] then none else some v2) =
    if v = [] then none else some v
  rw [splitOnC_name_value '=' usernameKey v hname hv]
  rfl

theorem getCookie_deleteCookie (jar : CookieJar) (hwf : jarWF jar) :
    getCookie usernameKey (deleteCookie usernameKey jar) = none := by
  have hname : '=' ∉ usernameKey := by decide
  unfold getCookie deleteCookie
  have hnone : List.find? (fun row => strStartsWith row (usernameKey ++ ['=']))
      (cookieRows (jar.filter fun e => e.1 != usernameKey)) = none := by
    rw [List.find?_eq_none]
    intro row hrow
    rw [filtered_rows_fail usernameKey hname jar hwf row hrow]
    exact Bool.false_ne_true
  rw [hnone]

/-- C10, counterexample.  The claim quantifies over every value without
`;` or `=`, which includes the empty string: after
`setCookie("username", "", 7)` the cookie row is `username=`, the piece
after the `=` is the empty string, and the `|| null` in `getCookie`
coerces it to null instead of returning the stored value. -/
theorem getCookie_empty_value_null :
    setCookie usernameKey [] 7 [] = [(usernameKey, [])]
    ∧ getCookie usernameKey (setCookie usernameKey [] 7 []) = none
    ∧ getCookie usernameKey (setCookie usernameKey [] 7 []) ≠ some [] := by
  refine ⟨by decide, by decide, by decide⟩

/-- C10, amended.  For every well-formed jar, every NON-EMPTY value
without `;` or `=`, and every positive ttl, `getCookie("username")`
right after `setCookie("username", value, ttl)` returns exactly that
value, and right after `deleteCookie("username")` returns null.  (An
empty value is stored but read back as null — the counterexample.) -/
theorem cookie_roundtrip (jar : CookieJar) (v : List Char) (days : Int)
    (hwf : jarWF jar) (hsemi : ';' ∉ v) (heq : '=' ∉ v) (hne : v ≠ [])
    (hd : 0 < days) :
    getCookie usernameKey (setCookie usernameKey v days jar) = some v
    ∧ getCookie usernameKey (deleteCookie usernameKey jar) = none := by
  have _hsemi := hsemi
  refine ⟨?_, getCookie_deleteCookie jar hwf⟩
  rw [getCookie_setCookie jar v days hwf heq hd, if_neg hne]

/-- C10, witness at a concrete jar and value. -/
theorem cookie_roundtrip_witness :
    jarWF [([' ', 'a'], ['1'])]
    ∧ (';' ∉ (['A', 'd', 'a'] : List Char))
    ∧ ('=' ∉ (['A', 'd', 'a'] : List Char))
    ∧ (['A', 'd', 'a'] : List Char) ≠ []
    ∧ (0 : Int) < 7
    ∧ (getCookie usernameKey
          (setCookie usernameKey ['A', 'd', 'a'] 7 [([' ', 'a'], ['1'])]) =
        some ['A', 'd', 'a']
      ∧ getCookie usernameKey (deleteCookie usernameKey [([' ', 'a'], ['1'])]) =
        none) :=
  ⟨by unfold jarWF; decide, by decide, by decide, by decide, by decide,
    cookie_roundtrip [([' ', 'a'], ['1'])] ['A', 'd', 'a'] 7
      (by unfold jarWF; decide) (by decide) (by decide) (by decide) (by decide)⟩

/-! ### Page-state lemmas and claims -/

theorem clearChecked_unchecked (doc : List RenderedQuestion) :
    ∀ q ∈ clearChecked doc, ∀ o ∈ q.options, o.checked = false := by
  intro q hq o ho
  rcases List.mem_map.mp hq with ⟨q0, _, rfl⟩
  rcases List.mem_map.mp ho with ⟨o0, _, rfl⟩
  rfl

/-- C7, counterexample.  When a fetch fails after a round was already
rendered (for example the fetch started by the second revision
`newPlayer`), the question area is NOT empty afterwards: the failure
path never touches the question container, so the previous blocks are
still rendered. -/
theorem fetchQuestions_failure_keeps_old_questions :
    (fetchQuestions idShuffle (Except.error ()) sampleRoundState).loadingHidden
        = true
    ∧ (fetchQuestions idShuffle (Except.error ()) sampleRoundState).questionsHidden
        = false
    ∧ (fetchQuestions idShuffle (Except.error ()) sampleRoundState).rendered
        = sampleRoundState.rendered
    ∧ sampleRoundState.rendered ≠ [] :=
  ⟨rfl, rfl, rfl, by decide⟩

/-- C7, amended.  When the fetch of `fetchQuestions` fails, the handler
swallows the error (the model is a total function, so no exception
escapes), the loading indicator ends hidden, the question area ends
visible, and the question area retains exactly whatever was rendered
before the call — which is empty on the initial page load, but not in
general. -/
theorem fetchQuestions_failure_state (shuffle : Nat → List String → List String)
    (st : GameState) :
    fetchQuestions shuffle (Except.error ()) st =
      { st with loadingHidden := true, questionsHidden := false,
                fetchesStarted := st.fetchesStarted + 1 } := rfl

/-- C8, counterexample.  The first revision `newPlayer`
(src/script.js lines 232-236) neither clears the selected answers nor
triggers a question load: on a state with an answered question it
starts no fetch and leaves the checked option checked. -/
theorem newPlayer_v1_keeps_selections_no_fetch :
    (V1.newPlayer sampleRoundState).fetchesStarted
        = sampleRoundState.fetchesStarted
    ∧ (V1.newPlayer sampleRoundState).rendered = sampleRoundState.rendered
    ∧ ¬ (∀ q ∈ (V1.newPlayer sampleRoundState).rendered,
          ∀ o ∈ q.options, o.checked = false) :=
  ⟨rfl, rfl, by decide⟩

/-- C8, amended.  The second revision `newPlayer` (src/script.js
lines 481-496) does everything the claim lists: it clears the session
cookie, empties the name field, unchecks every answer option, and
starts a fresh question load; afterwards the name field is visible and
the new-player control hidden.  (The first revision performs only the
cookie/name-field/visibility part — the counterexample.) -/
theorem newPlayer_v2_resets (st : GameState) (hwf : jarWF st.jar) :
    getCookie usernameKey (V2.newPlayer st).jar = none
    ∧ (V2.newPlayer st).usernameValue = ""
    ∧ (V2.newPlayer st).usernameHidden = false
    ∧ (V2.newPlayer st).newPlayerHidden = true
    ∧ (∀ q ∈ (V2.newPlayer st).rendered, ∀ o ∈ q.options, o.checked = false)
    ∧ (V2.newPlayer st).fetchesStarted = st.fetchesStarted + 1 := by
  have hcookie : getCookie usernameKey (deleteCookie usernameKey st.jar) = none :=
    getCookie_deleteCookie st.jar hwf
  have hnp : V2.newPlayer st =
      { st with jar := deleteCookie usernameKey st.jar,
                usernameValue := "",
                usernameHidden := false,
                newPlayerHidden := true,
                loadingHidden := false,
                questionsHidden := true,
                rendered := clearChecked st.rendered,
                fetchesStarted := st.fetchesStarted + 1 } := by
    unfold V2.newPlayer fetchStart showLoading updateUIBasedOnSession
    simp only [hcookie, Option.isSome_none, Bool.false_eq_true, if_false,
      Bool.not_true]
  rw [hnp]
  exact ⟨hcookie, rfl, rfl, rfl, clearChecked_unchecked st.rendered, rfl⟩

/-- C8, witness at a concrete mid-game state. -/
theorem newPlayer_v2_resets_witness :
    jarWF sampleRoundState.jar
    ∧ (getCookie usernameKey (V2.newPlayer sampleRoundState).jar = none
      ∧ (V2.newPlayer sampleRoundState).usernameValue = ""
      ∧ (V2.newPlayer sampleRoundState).usernameHidden = false
      ∧ (V2.newPlayer sampleRoundState).newPlayerHidden = true
      ∧ (∀ q ∈ (V2.newPlayer sampleRoundState).rendered,
          ∀ o ∈ q.options, o.checked = false)
      ∧ (V2.newPlayer sampleRoundState).fetchesStarted
          = sampleRoundState.fetchesStarted + 1) :=
  ⟨by unfold jarWF; decide,
    newPlayer_v2_resets sampleRoundState (by unfold jarWF; decide)⟩

end Trivia
